import Mathlib

/-!
Verification of the ai-aliya voice-assistant backend.

This file shallowly embeds the pure decision logic of the backend
(emotion heuristic, LLM failover routing, STT dispatch, speaker
enrollment/sanitization, and the turn orchestrator for the atomic and
streaming endpoints) and proves or refutes the specified properties.
External effects (HTTP transports, model inference, the filesystem) are
modelled by explicit parameters: each provider call is represented by
its outcome, and the speaker store by an association list from
directory name to contained file names.
-/

set_option maxHeartbeats 1000000

deriving instance DecidableEq for Except

/-! ### Python string primitives used by the code -/

/-- Python str.lower, restricted to ASCII letters and the Cyrillic
alphabet (the only alphabets appearing in the embedded code and data):
А..Я map down by 0x20, Ё maps to ё, ASCII via Char.toLower. -/
def pyLowerChar (c : Char) : Char :=
  if 0x410 ≤ c.toNat ∧ c.toNat ≤ 0x42F then Char.ofNat (c.toNat + 0x20)
  else if c.toNat = 0x401 then Char.ofNat 0x451
  else c.toLower

/-- Python str.lower on a whole string (character-wise). -/
def pyLower (s : String) : String := String.mk (s.toList.map pyLowerChar)

/-- Helper for substring containment on character lists. -/
def charsHasSub (needle : List Char) : List Char → Bool
  | [] => needle.isEmpty
  | c :: rest => needle.isPrefixOf (c :: rest) || charsHasSub needle rest

/-- Python `needle in haystack` on strings: substring containment. -/
def pyIn (needle haystack : String) : Bool :=
  charsHasSub needle.toList haystack.toList

/-- Python str.strip with no argument: drop whitespace from both ends. -/
def pyStrip (s : String) : String :=
  String.mk (((s.toList.dropWhile Char.isWhitespace).reverse.dropWhile
    Char.isWhitespace).reverse)

/-- Python `a or b` for strings: the empty string is falsy. -/
def pyOrStr (a b : String) : String := if a = "" then b else a

/-- Python truthiness of an optional string (None and "" are falsy),
used for `payload.speaker_id` checks. -/
def truthyStr : Option String → Bool
  | none => false
  | some s => s ≠ ""

/-- Concatenation of a list of strings (incremental += accumulation). -/
def strConcat (l : List String) : String := l.foldr (fun a b => a ++ b) ""

/-- Python str.startswith (structural, on the character lists). -/
def strStartsWith (s pre : String) : Bool := pre.toList.isPrefixOf s.toList

/-- Split a character list at every occurrence of a separator. -/
def splitChar (sep : Char) : List Char → List (List Char)
  | [] => [[]]
  | c :: rest =>
    if c = sep then [] :: splitChar sep rest
    else
      match splitChar sep rest with
      | [] => [[c]]
      | h :: t => (c :: h) :: t

/-- Python str.split with a one-character separator. -/
def pySplit (sep : Char) (s : String) : List String :=
  (splitChar sep s.toList).map String.mk

/-- Python sep.join(parts). -/
def pyJoin (sep : String) : List String → String
  | [] => ""
  | [x] => x
  | x :: rest => x ++ sep ++ pyJoin sep rest

/-! ### EmotionService (src/backend/app/services/emotion_service.py) -/

/-- EmotionService.detect: keyword heuristic over the lowercased
concatenation of user text and assistant text. -/
def EmotionService.detect (user_text assistant_text : String) : String :=
  let text := pyLower (user_text ++ " " ++ assistant_text)
  if pyIn "?" user_text
      || ["почему", "как", "зачем", "когда"].any (fun k => pyIn k text) then
    "thinking"
  else if ["отлично", "супер", "класс", "рад", "спасибо"].any
      (fun k => pyIn k text) then
    "happy"
  else if ["груст", "плохо", "устал", "больно", "тревог"].any
      (fun k => pyIn k text) then
    "empathetic"
  else if ["вау", "неожидан", "серьезно", "ого"].any
      (fun k => pyIn k text) then
    "surprised"
  else if ["прости", "жаль", "сожалею"].any (fun k => pyIn k text) then
    "sad"
  else
    "neutral"

/-! ### LLMService (src/backend/app/services/llm_service.py)

Provider transports are modelled by an outcome function
gen : String → Except String String, mapping a model name to the result
of one call of generate gemini on it (already folding in the empty
response check that function performs). The mutable affinity cell
self working gemini model is threaded explicitly: each routing function
takes the cell value and returns the updated value with the result. -/

/-- The model-list parsing in generate gemini with failover:
split the configured string on commas, strip each entry, keep the
truthy (non-empty) ones. -/
def parse_models (gemini_models : String) : List String :=
  ((pySplit ',' gemini_models).map pyStrip).filter (fun m => m ≠ "")

/-- The for-loop of generate gemini with failover: try each model in
order; on the first success remember it and return; if the list is
exhausted raise the aggregate error. Failures do not touch the cell
(which is None when the loop is reached with a cleared cell). -/
def failover_loop (gen : String → Except String String) :
    List String → Option String × Except String String
  | [] => (none, .error "All LLM models failed")
  | m :: rest =>
    match gen m with
    | .ok r => (some m, .ok r)
    | .error _ => failover_loop gen rest

/-- LLMService generate gemini with failover: first try the remembered
model if the cell is truthy (set and non-empty), clearing the cell when
that try fails; then iterate the full configured model list. -/
def LLMService.generate_gemini_with_failover (working : Option String)
    (gemini_models : String) (gen : String → Except String String) :
    Option String × Except String String :=
  match working with
  | some w =>
    if w = "" then failover_loop gen (parse_models gemini_models)
    else
      match gen w with
      | .ok r => (some w, .ok r)
      | .error _ => failover_loop gen (parse_models gemini_models)
  | none => failover_loop gen (parse_models gemini_models)

/-- The order in which the code actually attempts models: the
remembered model (whenever set and non-empty, with no membership check
against the configured list) followed by the whole configured list,
the remembered model not excluded. -/
def attempts_order (working : Option String) (gemini_models : String) :
    List String :=
  match working with
  | some w =>
    if w = "" then parse_models gemini_models
    else w :: parse_models gemini_models
  | none => parse_models gemini_models

/-- Modelled from the spec (for comparison only): the claimed routing —
try the remembered model first only if it is present in the configured
list, then the remaining models excluding the remembered one, in
configured order. -/
def failover_as_claimed (working : Option String) (gemini_models : String)
    (gen : String → Except String String) :
    Option String × Except String String :=
  let models := parse_models gemini_models
  let order :=
    match working with
    | some w => if models.contains w then w :: models.erase w else models
    | none => models
  failover_loop gen order

/-- Request arguments built for the OpenAI-style chat completion call;
temperature = none models the key being absent from kwargs. The
temperature payload type is abstract since only its presence matters. -/
structure OpenAIKwargs (α : Type) where
  model : String
  stream : Bool
  temperature : Option α
deriving DecidableEq

/-- The reasoning-model test shared by generate openai and
generate openai stream: name starts with o1 or o3, or contains the
substring gpt-5. -/
def LLMService.is_reasoning (model : String) : Bool :=
  strStartsWith model "o1" || strStartsWith model "o3" || pyIn "gpt-5" model

/-- Kwargs built by LLMService generate openai (atomic). -/
def LLMService.generate_openai_kwargs {α : Type} (model : String)
    (openai_temperature : α) : OpenAIKwargs α :=
  { model := model
    stream := false
    temperature :=
      if LLMService.is_reasoning model then none else some openai_temperature }

/-- Kwargs built by LLMService generate openai stream. -/
def LLMService.generate_openai_stream_kwargs {α : Type} (model : String)
    (openai_temperature : α) : OpenAIKwargs α :=
  { model := model
    stream := true
    temperature :=
      if LLMService.is_reasoning model then none else some openai_temperature }

/-- Modelled from the spec (for comparison only): a pure name-start
heuristic for reasoning-class models, as the claim words it. -/
def reasoningByNameStart (model : String) : Bool :=
  strStartsWith model "o1" || strStartsWith model "o3"
    || strStartsWith model "gpt-5"

/-! ### STTService (src/backend/app/services/stt_service.py)

The remote call is modelled by the response status and the optional
text field of its JSON body; the local model by the list of segment
texts it produced. -/

/-- STTService transcribe remote: raise for a non-2xx status, else
return the stripped text field of the JSON body, defaulting to the
empty string when the field is missing. No emptiness check. -/
def STTService.transcribe_remote (status : Nat) (textField : Option String) :
    Except String String :=
  if 200 ≤ status ∧ status ≤ 299 then .ok (pyStrip (textField.getD ""))
  else .error "HTTP status error"

/-- STTService transcribe sync (local mode): join the stripped segment
texts with single spaces, strip the result, and raise when it is empty. -/
def STTService.transcribe_sync (segments : List String) :
    Except String String :=
  let text := pyStrip (pyJoin " " (segments.map pyStrip))
  if text = "" then .error "Speech was not recognized. Try clearer audio."
  else .ok text

/-- STTService transcribe: dispatch on whisper use remote. -/
def STTService.transcribe (whisper_use_remote : Bool) (status : Nat)
    (textField : Option String) (segments : List String) :
    Except String String :=
  if whisper_use_remote then STTService.transcribe_remote status textField
  else STTService.transcribe_sync segments

/-! ### VoiceService speaker store (src/backend/app/services/voice_service.py)

The voices directory is modelled as an association list from speaker
directory name to the list of file names it contains; lookups and
updates address the first occurrence of a key. -/

/-- pathlib PurePath.suffix of the final path component: the part of
the name from its last dot, empty when the name has no dot, starts
with its only dot, or ends with its last dot. -/
def rfindDot : List Char → Option Nat
  | [] => none
  | c :: rest =>
    match rfindDot rest with
    | some i => some (i + 1)
    | none => if c = '.' then some 0 else none

/-- pathlib Path suffix (see rfindDot). -/
def pathSuffix (p : String) : String :=
  let name := (pySplit '/' p).getLastD ""
  let cs := name.toList
  match rfindDot cs with
  | some i => if 0 < i ∧ i < cs.length - 1 then String.mk (cs.drop i) else ""
  | none => ""

/-- Characters matched by the complement of the sanitize pattern:
ASCII letters, digits, underscore and hyphen survive sanitization. -/
def isAllowedChar (c : Char) : Bool :=
  let n := c.toNat
  (97 ≤ n && n ≤ 122) || (65 ≤ n && n ≤ 90) || (48 ≤ n && n ≤ 57)
    || n = 95 || n = 45

/-- The regex substitution SANITIZE RE.sub: each maximal run of
disallowed characters is replaced by a single underscore (the flag
records being inside such a run). -/
def subSanitizeAux (inRun : Bool) : List Char → List Char
  | [] => []
  | c :: rest =>
    if isAllowedChar c then c :: subSanitizeAux false rest
    else if inRun then subSanitizeAux true rest
    else '_' :: subSanitizeAux true rest

/-- The regex substitution applied from outside a run. -/
def subSanitize (cs : List Char) : List Char := subSanitizeAux false cs

/-- Python strip with argument underscore: drop underscores from both
ends (hyphens are kept). -/
def stripUnderscores (cs : List Char) : List Char :=
  ((cs.dropWhile (fun c => c = '_')).reverse.dropWhile
    (fun c => c = '_')).reverse

/-- VoiceService sanitize speaker id: substitute runs of disallowed
characters by one underscore, strip outer underscores, and raise a
ValueError when nothing remains. -/
def VoiceService.sanitize_speaker_id (speaker_id : String) :
    Except String String :=
  let cleaned := String.mk (stripUnderscores (subSanitize speaker_id.toList))
  if cleaned = "" then .error "Invalid speaker_id" else .ok cleaned

/-- The voices directory: directory name to contained file names. -/
abbrev Store := List (String × List String)

/-- Replace the files of the first occurrence of a directory, creating
the directory at the end when absent (mkdir parents, exist ok). -/
def Store.update (st : Store) (dir : String) (files : List String) : Store :=
  match st with
  | [] => [(dir, files)]
  | (d, fs) :: rest =>
    if d = dir then (d, files) :: rest
    else (d, fs) :: Store.update rest dir files

/-- The glob pattern reference dot star used by the speaker store. -/
def isReferenceFile (f : String) : Bool := strStartsWith f "reference."

/-- The file extensions the speaker store accepts. -/
def allowedSuffixes : List String := [".wav", ".mp3", ".m4a", ".ogg", ".flac"]

/-- VoiceService store reference audio: derive the suffix (lowercased,
defaulting to wav when empty), reject unsupported formats, sanitize the
speaker identity into a directory, delete every existing file matching
reference dot star in that directory and write reference with the new
suffix. Returns the new store, the directory and the stored file name. -/
def VoiceService.store_reference_audio (st : Store)
    (speaker_id filename : String) :
    Except String (Store × String × String) :=
  let sfx := pyOrStr (pyLower (pathSuffix filename)) ".wav"
  if ¬ allowedSuffixes.contains sfx then .error "Unsupported audio format"
  else
    match VoiceService.sanitize_speaker_id speaker_id with
    | .error e => .error e
    | .ok dir =>
      let oldFiles := (List.lookup dir st).getD []
      let kept := oldFiles.filter (fun f => ! isReferenceFile f)
      let target := "reference" ++ sfx
      .ok (Store.update st dir (kept ++ [target]), dir, target)

/-- VoiceService list speakers: one entry per directory of the voices
directory with whether a file matching reference dot star exists (the
sorted listing order of the OS is abstracted by the store order). -/
def VoiceService.list_speakers (st : Store) : List (String × Bool) :=
  st.map (fun e => (e.1, e.2.any isReferenceFile))

/-! ### Voice router (src/backend/app/routers/voice.py) -/

/-- The content-type guard shared by the upload endpoints: absent or
empty content types pass, else the type must start with audio slash or
application octet-stream. -/
def contentTypeOk : Option String → Bool
  | none => true
  | some ct =>
    ct = "" || strStartsWith ct "audio/"
      || strStartsWith ct "application/octet-stream"

/-- enroll voice: reject bad content types, then empty payloads, then
delegate to the speaker store (whose ValueError surfaces as a 400);
the filename defaults to reference wav when absent or empty. On
success returns the new store, the echoed speaker id and the stored
path relative to the voices directory. -/
def enroll_voice (st : Store) (content_type : Option String)
    (speaker_id : String) (filename : Option String) (data : List Nat) :
    Except (Nat × String) (Store × String × String) :=
  if ¬ contentTypeOk content_type then
    .error (400, "Only audio files are allowed")
  else if data = [] then .error (400, "Audio file is empty")
  else
    match VoiceService.store_reference_audio st speaker_id
        (pyOrStr (filename.getD "") "reference.wav") with
    | .error e => .error (400, e)
    | .ok (st2, dir, target) => .ok (st2, speaker_id, dir ++ "/" ++ target)

/-! ### Assistant router (src/backend/app/routers/assistant.py)

Python exception classes relevant to the turn flow. The synthesis step
(VoiceService synthesize) is modelled by its outcome: ok with the name
of the produced artifact, or error with the raised exception. -/

/-- Exception classes the services raise. -/
inductive PyExc where
  | fileNotFound (msg : String)
  | runtimeError (msg : String)
  | valueError (msg : String)
deriving DecidableEq

/-- build audio url: the static serving path of a produced artifact. -/
def build_audio_url (apiPref : String) (fileName : String) : String :=
  apiPref ++ "/voice/audio/" ++ fileName

/-- A TurnResult as returned by the atomic endpoints. -/
structure AssistantTurnResponse where
  user_text : String
  assistant_text : String
  emotion : String
  audio_url : Option String
deriving DecidableEq

/-- run assistant flow, entered after generate reply returned
assistant text: detect the emotion, then, when audio was requested and
a speaker is set, synthesize; only a FileNotFoundError from synthesis
is caught (degrading to audio url = none) — any other exception
propagates out of the flow and fails the turn. -/
def run_assistant_flow (apiPref : String) (user_text : String)
    (speaker_id : Option String) (generate_audio : Bool)
    (assistant_text : String) (synth : Except PyExc String) :
    Except PyExc AssistantTurnResponse :=
  let emotion := EmotionService.detect user_text assistant_text
  if generate_audio && truthyStr speaker_id then
    match synth with
    | .ok fileName =>
      .ok ⟨user_text, assistant_text, emotion,
        some (build_audio_url apiPref fileName)⟩
    | .error (PyExc.fileNotFound _) =>
      .ok ⟨user_text, assistant_text, emotion, none⟩
    | .error e => .error e
  else .ok ⟨user_text, assistant_text, emotion, none⟩

/-- The newline-delimited typed records of the streaming endpoint. -/
inductive StreamEvent where
  | text (content : String)
  | emotion (content : String)
  | audio (content : String)
  | error (content : String)
  | done
deriving DecidableEq

/-- stream generator of chat stream. The LLM stream is modelled by the
chunks it yielded plus an optional exception raised after them; the
synthesis step by its outcome. On an LLM exception the outer handler
emits one error record and the stream ends; otherwise one emotion
record follows the text records, then (when audio was requested and a
speaker is set) either one audio record or — when synthesis raised —
one error record from the inner handler, and finally one done record. -/
def stream_generator (apiPref : String) (user_text : String)
    (speaker_id : Option String) (generate_audio : Bool)
    (chunks : List String) (llmErr : Option String)
    (synth : Except PyExc String) : List StreamEvent :=
  let textEvents := chunks.map StreamEvent.text
  match llmErr with
  | some e => textEvents ++ [StreamEvent.error e]
  | none =>
    let full_text := strConcat chunks
    let emotionEvent :=
      StreamEvent.emotion (EmotionService.detect user_text full_text)
    let audioEvents :=
      if generate_audio && truthyStr speaker_id then
        match synth with
        | .ok fileName => [StreamEvent.audio (build_audio_url apiPref fileName)]
        | .error _ => [StreamEvent.error "Audio synthesis failed"]
      else []
    textEvents ++ [emotionEvent] ++ audioEvents ++ [StreamEvent.done]

/-- Count of done records in a stream. -/
def countDone (evs : List StreamEvent) : Nat :=
  evs.countP (fun e => match e with | StreamEvent.done => true | _ => false)

/-- Count of error records in a stream. -/
def countError (evs : List StreamEvent) : Nat :=
  evs.countP (fun e => match e with | StreamEvent.error _ => true | _ => false)

/-- Count of emotion records in a stream. -/
def countEmotion (evs : List StreamEvent) : Nat :=
  evs.countP (fun e => match e with | StreamEvent.emotion _ => true | _ => false)

/-- Count of audio records in a stream. -/
def countAudio (evs : List StreamEvent) : Nat :=
  evs.countP (fun e => match e with | StreamEvent.audio _ => true | _ => false)

/-- Concatenation of the contents of the text records of a stream. -/
def streamTextConcat (evs : List StreamEvent) : String :=
  strConcat (evs.filterMap
    (fun e => match e with | StreamEvent.text c => some c | _ => none))

/-! ### Deterministic provider stub (for the stream/atomic comparison)

Both atomic transports return the stripped provider text and raise on
a falsy (empty) one; both stream transports yield exactly the truthy
chunks unchanged. -/

/-- The atomic transports applied to the raw provider text: raise on
an empty text, else return it stripped. -/
def provider_atomic_text (raw : String) : Except String String :=
  if raw = "" then .error "Gemini returned an empty response"
  else .ok (pyStrip raw)

/-- The stream transports applied to the raw provider chunks: yield
each truthy chunk unchanged, dropping empty ones. -/
def provider_stream_chunks (chunks : List String) : List String :=
  chunks.filter (fun c => c ≠ "")

/-! ### Shared helper lemmas -/

/-- A list filtered by the negation of a predicate has no element left
satisfying the predicate. -/
theorem filter_filter_not (p : String → Bool) (l : List String) :
    (l.filter (fun f => !p f)).filter p = [] := by
  induction l with
  | nil => rfl
  | cons c rest ih =>
    by_cases h : p c <;> simp [List.filter_cons, h, ih]

/-- Looking up a directory right after updating it yields the new
files. -/
theorem lookup_update (st : Store) (dir : String) (files : List String) :
    List.lookup dir (Store.update st dir files) = some files := by
  induction st with
  | nil => simp [Store.update, List.lookup]
  | cons e rest ih =>
    obtain ⟨d, fs⟩ := e
    by_cases h : d = dir
    · subst h
      simp [Store.update, List.lookup]
    · have hbeq : (dir == d) = false :=
        beq_eq_false_iff_ne.mpr (fun hh => h hh.symm)
      simp [Store.update, h, List.lookup, hbeq, ih]

/-- The updated entry is present in the updated store. -/
theorem mem_update (st : Store) (dir : String) (files : List String) :
    (dir, files) ∈ Store.update st dir files := by
  induction st with
  | nil => simp [Store.update]
  | cons e rest ih =>
    obtain ⟨d, fs⟩ := e
    by_cases h : d = dir
    · simp [Store.update, h]
    · simp [Store.update, h, ih]

/-- The artifact written by the speaker store matches the reference
glob pattern, for every suffix the store accepts. -/
theorem isRef_reference_sfx (sfx : String)
    (h : allowedSuffixes.contains sfx = true) :
    isReferenceFile ("reference" ++ sfx) = true := by
  have hm : sfx ∈ allowedSuffixes := by
    simpa using h
  simp only [allowedSuffixes, List.mem_cons, List.not_mem_nil, or_false] at hm
  rcases hm with rfl | rfl | rfl | rfl | rfl <;> decide

/-- What a successful enrollment through the speaker store guarantees:
the identity sanitized to the returned directory, the stored artifact
matches the reference pattern, the directory now holds exactly that
one reference artifact, and the speaker listing reports it. -/
theorem store_ok_spec (st : Store) (id fn : String) (st2 : Store)
    (dir t : String)
    (h : VoiceService.store_reference_audio st id fn = .ok (st2, dir, t)) :
    VoiceService.sanitize_speaker_id id = .ok dir ∧
    isReferenceFile t = true ∧
    ((List.lookup dir st2).getD []).filter isReferenceFile = [t] ∧
    (dir, true) ∈ VoiceService.list_speakers st2 := by
  unfold VoiceService.store_reference_audio at h
  by_cases hc :
      allowedSuffixes.contains (pyOrStr (pyLower (pathSuffix fn)) ".wav") = true
  · rw [if_neg (by simpa using hc)] at h
    cases hsan : VoiceService.sanitize_speaker_id id with
    | error e => rw [hsan] at h; cases h
    | ok d =>
      rw [hsan] at h
      simp only [Except.ok.injEq, Prod.mk.injEq] at h
      obtain ⟨hst, hdir, ht⟩ := h
      subst hdir
      subst ht
      subst hst
      refine ⟨rfl, isRef_reference_sfx _ hc, ?_, ?_⟩
      · rw [lookup_update]
        simp [List.filter_append, filter_filter_not, List.filter_cons,
          isRef_reference_sfx _ hc]
      · have hmem := mem_update st d
          ((((List.lookup d st).getD []).filter
            (fun f => ! isReferenceFile f)) ++
            ["reference" ++ pyOrStr (pyLower (pathSuffix fn)) ".wav"])
        have hmap := List.mem_map_of_mem
          (fun e : String × List String => (e.1, e.2.any isReferenceFile)) hmem
        have hany :
            ((((List.lookup d st).getD []).filter
              (fun f => ! isReferenceFile f)) ++
              ["reference" ++ pyOrStr (pyLower (pathSuffix fn)) ".wav"]).any
              isReferenceFile = true :=
          List.any_eq_true.mpr
            ⟨"reference" ++ pyOrStr (pyLower (pathSuffix fn)) ".wav",
              by simp, isRef_reference_sfx _ hc⟩
        simp only [VoiceService.list_speakers]
        simpa [hany] using hmap
  · rw [if_pos (by simpa using hc)] at h
    cases h

/-! ### Claim theorems -/

/-- C3 counterexample: on the concrete scenario pair the emotion
classifier does not return neutral — the lowercased combined text
contains the question keyword and the classifier returns thinking. -/
theorem emotion_privet_not_neutral :
    EmotionService.detect "Привет" "Привет! Как дела?" ≠ "neutral" := by
  decide

/-- C3 (amended): for user text Привет and assistant text
Привет! Как дела? the classifier returns thinking (the combined
lowercased text contains как), so the atomic TurnResult carries
emotion = thinking. -/
theorem chat_privet_turn_thinking :
    EmotionService.detect "Привет" "Привет! Как дела?" = "thinking" ∧
    run_assistant_flow "/api/v1" "Привет" (some "aliya_test") true
      "Привет! Как дела?" (.ok "x.wav") =
    .ok ⟨"Привет", "Привет! Как дела?", "thinking",
      some "/api/v1/voice/audio/x.wav"⟩ := by
  constructor
  · decide
  · decide

/-- C10: speaker-identity sanitization is not injective — a.b and
a b are distinct raw identities that both sanitize to a_b, hence
resolve to one directory, and enrolling the second deletes and
replaces the reference artifact enrolled for the first. -/
theorem sanitize_collision_replaces_reference :
    VoiceService.sanitize_speaker_id "a.b" = .ok "a_b" ∧
    VoiceService.sanitize_speaker_id "a b" = .ok "a_b" ∧
    ("a.b" : String) ≠ "a b" ∧
    VoiceService.store_reference_audio [] "a.b" "x.wav" =
      .ok ([("a_b", ["reference.wav"])], "a_b", "reference.wav") ∧
    VoiceService.store_reference_audio
        [("a_b", ["reference.wav"])] "a b" "y.mp3" =
      .ok ([("a_b", ["reference.mp3"])], "a_b", "reference.mp3") := by
  refine ⟨by decide, by decide, by decide, by decide, by decide⟩

/-- C9 counterexample: chatgpt-5-mini is not reasoning-class under a
pure name-start heuristic, yet both the atomic and the streaming
kwargs builders omit the temperature for it, because the code tests
gpt-5 as a substring, not as a name start. -/
theorem openai_temperature_gpt5_substring :
    reasoningByNameStart "chatgpt-5-mini" = false ∧
    (LLMService.generate_openai_kwargs "chatgpt-5-mini" (7 : Nat)).temperature
      = none ∧
    (LLMService.generate_openai_stream_kwargs "chatgpt-5-mini"
      (7 : Nat)).temperature = none := by
  refine ⟨by decide, by decide, by decide⟩

/-- C9 (amended): for every atomic or streaming OpenAI-style request,
the temperature is absent exactly when the model name starts with o1
or o3 or contains the substring gpt-5, and otherwise the configured
temperature is included. -/
theorem openai_temperature_iff_not_reasoning {α : Type} (model : String)
    (t : α) :
    ((LLMService.generate_openai_kwargs model t).temperature = none ↔
      LLMService.is_reasoning model = true) ∧
    ((LLMService.generate_openai_stream_kwargs model t).temperature = none ↔
      LLMService.is_reasoning model = true) ∧
    (LLMService.is_reasoning model = false →
      (LLMService.generate_openai_kwargs model t).temperature = some t ∧
      (LLMService.generate_openai_stream_kwargs model t).temperature
        = some t) := by
  cases h : LLMService.is_reasoning model <;>
    simp [LLMService.generate_openai_kwargs,
      LLMService.generate_openai_stream_kwargs, h]

/-- C9 witness: a non-reasoning model receives the configured
temperature in both request shapes. -/
theorem openai_temperature_iff_not_reasoning_witness :
    (LLMService.generate_openai_kwargs "gpt-4o-mini" (7 : Nat)).temperature
      = some 7 ∧
    (LLMService.generate_openai_stream_kwargs "gpt-4o-mini"
      (7 : Nat)).temperature = some 7 :=
  (openai_temperature_iff_not_reasoning "gpt-4o-mini" 7).2.2 (by decide)

/-- C5 counterexample: in remote mode a 200 response whose text field
is empty makes transcribe return the empty string as a valid result —
no speech-not-recognized error is raised on that path. -/
theorem transcribe_remote_empty_ok :
    STTService.transcribe true 200 (some "") [] = .ok "" := by decide

/-- C5 (amended): the local path raises speech-not-recognized on an
empty joined transcription and never returns an empty ok, while the
remote path returns the stripped text field of any 2xx response
unchecked, so an empty remote transcription is returned as a valid
empty string. -/
theorem transcribe_empty_handling (status : Nat) (tf : Option String)
    (segments : List String) :
    (STTService.transcribe_sync segments =
        .error "Speech was not recognized. Try clearer audio." ∨
      ∃ t, STTService.transcribe_sync segments = .ok t ∧ t ≠ "") ∧
    (200 ≤ status → status ≤ 299 →
      STTService.transcribe true status tf [] =
        .ok (pyStrip (tf.getD ""))) ∧
    STTService.transcribe false status tf segments =
      STTService.transcribe_sync segments := by
  refine ⟨?_, ?_, ?_⟩
  · unfold STTService.transcribe_sync
    by_cases h : pyStrip (pyJoin " " (segments.map pyStrip)) = ""
    · left
      simp [h]
    · right
      exact ⟨_, by simp [h], h⟩
  · intro h1 h2
    simp [STTService.transcribe, STTService.transcribe_remote, h1, h2]
  · simp [STTService.transcribe]

/-- C5 witness: remote mode at status 200 returns the stripped text. -/
theorem transcribe_empty_handling_witness :
    STTService.transcribe true 200 (some " hi ") [] =
      .ok (pyStrip ((some " hi ").getD "")) :=
  (transcribe_empty_handling 200 (some " hi ") ["x"]).2.1
    (by decide) (by decide)

/-- C1 counterexample: with audio requested and a speaker set, a
synthesis step that raises a RuntimeError makes the atomic flow itself
raise — the turn does not complete with a null audio reference (the
chat endpoint turns this into a 502). -/
theorem chat_synthesis_runtime_error_fails_turn :
    run_assistant_flow "/api/v1" "Привет" (some "aliya") true "Ответ"
      (.error (PyExc.runtimeError "Worker synthesis failed: boom")) =
    .error (PyExc.runtimeError "Worker synthesis failed: boom") := by
  decide

/-- C1 (amended): within the atomic flow, only a FileNotFoundError
from synthesis is swallowed, completing the turn with a null audio
reference; a successful synthesis yields the audio URL; any other
exception (RuntimeError, ValueError) propagates and fails the turn. -/
theorem run_assistant_flow_synthesis_handling (apiPref ut atext : String)
    (sid : Option String) (ga : Bool) (synth : Except PyExc String)
    (hreq : (ga && truthyStr sid) = true) :
    (∀ m, synth = .error (PyExc.fileNotFound m) →
      run_assistant_flow apiPref ut sid ga atext synth =
        .ok ⟨ut, atext, EmotionService.detect ut atext, none⟩) ∧
    (∀ f, synth = .ok f →
      run_assistant_flow apiPref ut sid ga atext synth =
        .ok ⟨ut, atext, EmotionService.detect ut atext,
          some (build_audio_url apiPref f)⟩) ∧
    (∀ m, synth = .error (PyExc.runtimeError m) →
      run_assistant_flow apiPref ut sid ga atext synth =
        .error (PyExc.runtimeError m)) ∧
    (∀ m, synth = .error (PyExc.valueError m) →
      run_assistant_flow apiPref ut sid ga atext synth =
        .error (PyExc.valueError m)) := by
  refine ⟨?_, ?_, ?_, ?_⟩ <;> intro x hx <;> subst hx <;>
    simp [run_assistant_flow, hreq]

/-- C1 witness: a missing voice profile degrades the concrete turn to
a null audio reference. -/
theorem run_assistant_flow_synthesis_handling_witness :
    run_assistant_flow "/api/v1" "hi" (some "aliya") true "ok"
      (.error (PyExc.fileNotFound "Voice profile not found")) =
    .ok ⟨"hi", "ok", EmotionService.detect "hi" "ok", none⟩ :=
  (run_assistant_flow_synthesis_handling "/api/v1" "hi" "ok" (some "aliya")
    true (.error (PyExc.fileNotFound "Voice profile not found"))
    (by decide)).1 "Voice profile not found" rfl

/-- When every model in a list fails, the loop returns the aggregate
error with a cleared cell. -/
theorem failover_loop_all_fail (gen : String → Except String String)
    (models : List String)
    (hall : ∀ m ∈ models, ∃ e, gen m = .error e) :
    failover_loop gen models = (none, .error "All LLM models failed") := by
  induction models with
  | nil => rfl
  | cons m rest ih =>
    obtain ⟨e, he⟩ := hall m (by simp)
    rw [failover_loop, he]
    exact ih (fun x hx => hall x (by simp [hx]))

/-- A successful loop result comes from some listed model: the
returned cell remembers exactly the model that produced the reply. -/
theorem failover_loop_ok (gen : String → Except String String)
    (models : List String) (st : Option String) (r : String)
    (h : failover_loop gen models = (st, .ok r)) :
    ∃ m, st = some m ∧ gen m = .ok r ∧ m ∈ models := by
  induction models with
  | nil => cases h
  | cons m rest ih =>
    rw [failover_loop] at h
    cases hg : gen m with
    | ok v =>
      rw [hg] at h
      simp only [Prod.mk.injEq, Except.ok.injEq] at h
      obtain ⟨h1, h2⟩ := h
      exact ⟨m, h1.symm, by rw [hg, h2], by simp⟩
    | error e =>
      rw [hg] at h
      obtain ⟨x, hx1, hx2, hx3⟩ := ih h
      exact ⟨x, hx1, hx2, by simp [hx3]⟩

/-- C2 counterexample: with a remembered model absent from the (empty)
configured list and a transport that would answer any model, the code
succeeds by calling the remembered model anyway, while the routing the
claim describes (remembered model only if listed, aggregate error once
every listed model failed) would have to fail. -/
theorem failover_remembered_outside_list :
    LLMService.generate_gemini_with_failover (some "gemini-x") ""
        (fun m => .ok (m ++ "-reply")) =
      (some "gemini-x", .ok "gemini-x-reply") ∧
    parse_models "" = [] ∧
    failover_as_claimed (some "gemini-x") "" (fun m => .ok (m ++ "-reply")) =
      (none, .error "All LLM models failed") := by
  refine ⟨by decide, by decide, by decide⟩

/-- C2 (amended): the atomic failover is the first-success scan of the
attempt order = remembered model (whenever set and non-empty,
regardless of membership in the configured list) followed by the whole
configured list (the remembered model not excluded); the first model
to return a result becomes the new remembered model, and when every
attempted model fails the call raises the aggregate all-models-failed
error with a cleared cell. -/
theorem generate_gemini_with_failover_characterization
    (working : Option String) (cfg : String)
    (gen : String → Except String String) :
    LLMService.generate_gemini_with_failover working cfg gen =
      failover_loop gen (attempts_order working cfg) ∧
    ((∀ m ∈ attempts_order working cfg, ∃ e, gen m = .error e) →
      LLMService.generate_gemini_with_failover working cfg gen =
        (none, .error "All LLM models failed")) ∧
    (∀ st r,
      LLMService.generate_gemini_with_failover working cfg gen =
        (st, .ok r) →
      ∃ m, st = some m ∧ gen m = .ok r ∧ m ∈ attempts_order working cfg) := by
  have heq : LLMService.generate_gemini_with_failover working cfg gen =
      failover_loop gen (attempts_order working cfg) := by
    cases working with
    | none => rfl
    | some w =>
      by_cases hw : w = ""
      · simp [LLMService.generate_gemini_with_failover, attempts_order, hw]
      · simp only [LLMService.generate_gemini_with_failover, attempts_order,
          if_neg hw]
        cases hg : gen w with
        | ok r => rw [failover_loop, hg]
        | error e => rw [failover_loop, hg]
  refine ⟨heq, ?_, ?_⟩
  · intro hall
    rw [heq]
    exact failover_loop_all_fail gen _ hall
  · intro st r h
    rw [heq] at h
    exact failover_loop_ok gen _ st r h

/-- C2 witness: when the remembered try and every configured model
fail, the concrete call returns the aggregate error. -/
theorem generate_gemini_with_failover_characterization_witness :
    LLMService.generate_gemini_with_failover (some "a") "b, c"
      (fun _ => .error "down") = (none, .error "All LLM models failed") :=
  (generate_gemini_with_failover_characterization (some "a") "b, c"
    (fun _ => .error "down")).2.1 (fun _ _ => ⟨"down", rfl⟩)

/-- Text records satisfy none of the non-text record predicates, so a
block of text records contributes nothing to such a count. -/
theorem countP_text_zero (p : StreamEvent → Bool)
    (hp : ∀ s, p (StreamEvent.text s) = false) (chunks : List String) :
    (chunks.map StreamEvent.text).countP p = 0 := by
  induction chunks with
  | nil => simp
  | cons c rest ih => simp [List.countP_cons, hp, ih]

/-- Text records contain no done record. -/
theorem countDone_text (chunks : List String) :
    countDone (chunks.map StreamEvent.text) = 0 :=
  countP_text_zero
    (fun e => match e with | StreamEvent.done => true | _ => false)
    (fun _ => rfl) chunks

/-- Text records contain no error record. -/
theorem countError_text (chunks : List String) :
    countError (chunks.map StreamEvent.text) = 0 :=
  countP_text_zero
    (fun e => match e with | StreamEvent.error _ => true | _ => false)
    (fun _ => rfl) chunks

/-- Text records contain no emotion record. -/
theorem countEmotion_text (chunks : List String) :
    countEmotion (chunks.map StreamEvent.text) = 0 :=
  countP_text_zero
    (fun e => match e with | StreamEvent.emotion _ => true | _ => false)
    (fun _ => rfl) chunks

/-- Text records contain no audio record. -/
theorem countAudio_text (chunks : List String) :
    countAudio (chunks.map StreamEvent.text) = 0 :=
  countP_text_zero
    (fun e => match e with | StreamEvent.audio _ => true | _ => false)
    (fun _ => rfl) chunks

/-- C4: every stream reaches a terminal record exactly once — an LLM
exception yields the emitted text records followed by a single error
record ending the stream (no done), and otherwise the stream ends with
exactly one done record, preceded by exactly one emotion record and,
when audio was requested, by exactly one audio record or by exactly
one audio-stage error record when synthesis raised. -/
theorem stream_generator_terminal (apiPref ut : String)
    (sid : Option String) (ga : Bool) (chunks : List String)
    (llmErr : Option String) (synth : Except PyExc String) :
    match llmErr with
    | some e =>
      (stream_generator apiPref ut sid ga chunks llmErr synth).getLast? =
          some (StreamEvent.error e) ∧
      countDone (stream_generator apiPref ut sid ga chunks llmErr synth)
          = 0 ∧
      countError (stream_generator apiPref ut sid ga chunks llmErr synth)
          = 1
    | none =>
      (stream_generator apiPref ut sid ga chunks llmErr synth).getLast? =
          some StreamEvent.done ∧
      countDone (stream_generator apiPref ut sid ga chunks llmErr synth)
          = 1 ∧
      countEmotion (stream_generator apiPref ut sid ga chunks llmErr synth)
          = 1 ∧
      (if (ga && truthyStr sid) = true then
        match synth with
        | .ok _ =>
          countAudio (stream_generator apiPref ut sid ga chunks llmErr synth)
              = 1 ∧
          countError (stream_generator apiPref ut sid ga chunks llmErr synth)
              = 0
        | .error _ =>
          countAudio (stream_generator apiPref ut sid ga chunks llmErr synth)
              = 0 ∧
          countError (stream_generator apiPref ut sid ga chunks llmErr synth)
              = 1
      else
        countAudio (stream_generator apiPref ut sid ga chunks llmErr synth)
            = 0 ∧
        countError (stream_generator apiPref ut sid ga chunks llmErr synth)
            = 0) := by
  cases llmErr with
  | some e =>
    refine ⟨?_, ?_, ?_⟩
    · simp [stream_generator, List.getLast?_concat]
    · simp [stream_generator, countDone, countDone_text chunks,
        List.countP_append, countP_text_zero]
    · simp [stream_generator, countError, countError_text chunks,
        List.countP_append, countP_text_zero]
  | none =>
    by_cases hreq : (ga && truthyStr sid) = true
    · cases synth with
      | ok f =>
        refine ⟨?_, ?_, ?_, ?_⟩ <;>
          simp [stream_generator, hreq, countDone, countEmotion, countAudio,
            countError, List.countP_append, List.getLast?_concat,
            countDone_text chunks, countError_text chunks,
            countEmotion_text chunks, countAudio_text chunks]
      | error e =>
        refine ⟨?_, ?_, ?_, ?_⟩ <;>
          simp [stream_generator, hreq, countDone, countEmotion, countAudio,
            countError, List.countP_append, List.getLast?_concat,
            countDone_text chunks, countError_text chunks,
            countEmotion_text chunks, countAudio_text chunks]
    · refine ⟨?_, ?_, ?_, ?_⟩ <;>
        simp [stream_generator, hreq, countDone, countEmotion, countAudio,
          countError, List.countP_append, List.getLast?_concat,
          countDone_text chunks, countError_text chunks,
          countEmotion_text chunks, countAudio_text chunks]

/-- Projecting the text contents out of a block of text records gives
back the chunks. -/
theorem filterMap_text_map (chunks : List String) :
    (chunks.map StreamEvent.text).filterMap
      (fun e => match e with | StreamEvent.text c => some c | _ => none) =
    chunks := by
  induction chunks with
  | nil => rfl
  | cons c rest ih => simp [List.filterMap_cons, ih]

/-- Unfolding one step of the concatenation. -/
theorem strConcat_cons (c : String) (l : List String) :
    strConcat (c :: l) = c ++ strConcat l := rfl

/-- The empty string is a left identity of append. -/
theorem str_empty_append (s : String) : "" ++ s = s := by
  cases s
  rfl

/-- Dropping empty chunks does not change the concatenation. -/
theorem strConcat_filter_truthy (chunks : List String) :
    strConcat (chunks.filter (fun c => c ≠ "")) = strConcat chunks := by
  induction chunks with
  | nil => rfl
  | cons c rest ih =>
    rw [List.filter_cons]
    by_cases hc : c = ""
    · subst hc
      rw [if_neg (by simp)]
      rw [ih, strConcat_cons, str_empty_append]
    · rw [if_pos (by simp [hc])]
      rw [strConcat_cons, strConcat_cons, ih]

/-- The text records of a non-failing stream are exactly its chunks. -/
theorem streamTextConcat_generator (apiPref ut : String)
    (sid : Option String) (ga : Bool) (chunks : List String)
    (synth : Except PyExc String) :
    streamTextConcat (stream_generator apiPref ut sid ga chunks none synth) =
      strConcat chunks := by
  unfold stream_generator streamTextConcat
  rw [List.filterMap_append, List.filterMap_append, List.filterMap_append,
    filterMap_text_map]
  by_cases hreq : (ga && truthyStr sid) = true
  · cases synth with
    | ok f => simp [hreq, List.filterMap_cons]
    | error e => simp [hreq, List.filterMap_cons]
  · simp [hreq, List.filterMap_cons]

/-- C6 counterexample: a deterministic stub whose reply carries a
trailing space — the streaming turn forwards the raw chunks, so the
concatenated text records keep the space, while the equivalent atomic
call strips it, and the two texts differ. -/
theorem stream_vs_atomic_strip_mismatch :
    streamTextConcat (stream_generator "/api/v1" "Привет" none false
        (provider_stream_chunks ["Привет! "]) none
        (.error (PyExc.runtimeError "unused"))) = "Привет! " ∧
    provider_atomic_text (strConcat ["Привет! "]) = .ok "Привет!" ∧
    ("Привет! " : String) ≠ "Привет!" := by
  refine ⟨by decide, by decide, by decide⟩

/-- C6 (amended): against a deterministic stub, the concatenation of
the emitted text records equals the raw stub text, while the atomic
call returns it stripped; the two coincide exactly when the stub text
carries no surrounding whitespace. -/
theorem stream_concat_eq_atomic_when_stripped (apiPref ut : String)
    (sid : Option String) (ga : Bool) (synth : Except PyExc String)
    (chunks : List String) (raw : String)
    (hstub : strConcat chunks = raw) (hne : raw ≠ "") :
    streamTextConcat (stream_generator apiPref ut sid ga
        (provider_stream_chunks chunks) none synth) = raw ∧
    provider_atomic_text raw = .ok (pyStrip raw) ∧
    (pyStrip raw = raw →
      provider_atomic_text raw =
        .ok (streamTextConcat (stream_generator apiPref ut sid ga
          (provider_stream_chunks chunks) none synth))) := by
  have h1 : streamTextConcat (stream_generator apiPref ut sid ga
      (provider_stream_chunks chunks) none synth) = raw := by
    rw [streamTextConcat_generator]
    show strConcat (chunks.filter (fun c => c ≠ "")) = raw
    rw [strConcat_filter_truthy, hstub]
  refine ⟨h1, by simp [provider_atomic_text, hne], ?_⟩
  intro hclean
  rw [h1]
  simp [provider_atomic_text, hne, hclean]

/-- C6 witness: with a whitespace-clean stub reply the atomic text and
the concatenated streaming text agree. -/
theorem stream_concat_eq_atomic_when_stripped_witness :
    provider_atomic_text "Привет!" =
      .ok (streamTextConcat (stream_generator "/api/v1" "Привет" none false
        (provider_stream_chunks ["Привет!"]) none
        (.error (PyExc.runtimeError "unused")))) :=
  (stream_concat_eq_atomic_when_stripped "/api/v1" "Привет" none false
    (.error (PyExc.runtimeError "unused")) ["Привет!"] "Привет!"
    (by decide) (by decide)).2.2 (by decide)

/-- C7: after any successful enroll, the speaker directory holds
exactly one reference artifact and the speaker listing reports
has-reference for it; a second successful enroll for the same identity
(any other file name or extension) resolves to the same directory and
again leaves exactly one reference file — replacement, not
accumulation. -/
theorem enroll_single_reference_invariant (st : Store) (id fn1 fn2 : String)
    (st1 : Store) (dir t1 : String)
    (h1 : VoiceService.store_reference_audio st id fn1 = .ok (st1, dir, t1)) :
    ((List.lookup dir st1).getD []).filter isReferenceFile = [t1] ∧
    (dir, true) ∈ VoiceService.list_speakers st1 ∧
    ∀ st2 dir2 t2,
      VoiceService.store_reference_audio st1 id fn2 = .ok (st2, dir2, t2) →
      dir2 = dir ∧
      ((List.lookup dir st2).getD []).filter isReferenceFile = [t2] := by
  obtain ⟨hsan1, _, hone1, hlist1⟩ := store_ok_spec st id fn1 st1 dir t1 h1
  refine ⟨hone1, hlist1, ?_⟩
  intro st2 dir2 t2 h2
  obtain ⟨hsan2, _, hone2, _⟩ := store_ok_spec st1 id fn2 st2 dir2 t2 h2
  rw [hsan1] at hsan2
  have hdir : dir2 = dir := (Except.ok.inj hsan2).symm
  subst hdir
  exact ⟨rfl, hone2⟩

/-- C7 witness: the concrete first enroll of aliya test leaves the
speaker listed with a reference. -/
theorem enroll_single_reference_invariant_witness :
    ("aliya_test", true) ∈
      VoiceService.list_speakers [("aliya_test", ["reference.wav"])] :=
  (enroll_single_reference_invariant [] "aliya_test" "sample.wav"
    "sample.mp3" [("aliya_test", ["reference.wav"])] "aliya_test"
    "reference.wav" (by decide)).2.1

/-- C8 counterexample: a filename without any extension (suffix empty,
hence not in the allowed set) is not rejected — the enrollment
defaults the suffix to wav and stores the payload. -/
theorem enroll_missing_extension_accepted :
    pathSuffix "audio" = "" ∧
    allowedSuffixes.contains "" = false ∧
    enroll_voice [] none "bob" (some "audio") [1] =
      .ok ([("bob", ["reference.wav"])], "bob", "bob/reference.wav") := by
  refine ⟨by decide, by decide, by decide⟩

/-- C8 (amended): with an acceptable content type, an empty payload is
rejected with a client error; a non-empty payload whose filename has a
suffix that (lowercased, defaulting to wav when absent) is outside
{wav, mp3, m4a, ogg, flac} is rejected with a client error; and a
non-empty payload with an acceptable suffix and a sanitizable speaker
identity is accepted, returning the stored path — in particular a
filename without an extension is accepted as wav. -/
theorem enroll_validation_characterization (st : Store) (ct : Option String)
    (sid : String) (fn : Option String) (data : List Nat)
    (hct : contentTypeOk ct = true) :
    (data = [] →
      enroll_voice st ct sid fn data = .error (400, "Audio file is empty")) ∧
    (data ≠ [] →
      (allowedSuffixes.contains
          (pyOrStr (pyLower (pathSuffix (pyOrStr (fn.getD "")
            "reference.wav"))) ".wav") = false →
        enroll_voice st ct sid fn data =
          .error (400, "Unsupported audio format")) ∧
      (∀ dir, VoiceService.sanitize_speaker_id sid = .ok dir →
        allowedSuffixes.contains
          (pyOrStr (pyLower (pathSuffix (pyOrStr (fn.getD "")
            "reference.wav"))) ".wav") = true →
        ∃ st2, enroll_voice st ct sid fn data =
          .ok (st2, sid, dir ++ "/" ++ ("reference" ++
            pyOrStr (pyLower (pathSuffix (pyOrStr (fn.getD "")
              "reference.wav"))) ".wav")))) := by
  refine ⟨?_, ?_⟩
  · intro hdata
    subst hdata
    simp [enroll_voice, hct]
  · intro hdata
    constructor
    · intro hsfx
      unfold enroll_voice
      rw [if_neg (by simp [hct]), if_neg (by simpa using hdata)]
      unfold VoiceService.store_reference_audio
      rw [if_pos (by simpa using hsfx)]
    · intro dir hdir hsfx
      unfold enroll_voice
      rw [if_neg (by simp [hct]), if_neg (by simpa using hdata)]
      unfold VoiceService.store_reference_audio
      rw [if_neg (by simpa using hsfx), hdir]
      exact ⟨_, rfl⟩

/-- C8 witness: a concrete mp3 enrollment is accepted and returns the
stored path. -/
theorem enroll_validation_characterization_witness :
    ∃ st2, enroll_voice [] none "bob" (some "x.mp3") [1] =
      .ok (st2, "bob", "bob" ++ "/" ++ ("reference" ++
        pyOrStr (pyLower (pathSuffix (pyOrStr ((some "x.mp3").getD "")
          "reference.wav"))) ".wav")) :=
  ((enroll_validation_characterization [] none "bob" (some "x.mp3") [1]
    (by decide)).2 (by decide)).2 "bob" (by decide) (by decide)
